import Mathlib

/-!
Verification of the structured-failure subsystem (`src/serr.rs`) of a small
Scheme interpreter.  The Rust enum `SErr`, its `Display` implementation
(`SErr.fmt`), its `Error::description` implementation (`SErr.description`),
the convenience constructors, the `From` adapters for `io::Error` and
`env::VarError`, and the `serr!` / `bail!` macros are embedded shallowly as
Lean definitions.  `Token` and `SExpr` are external collaborator types
(lexer/parser, not part of this subsystem); following the specification they
are modelled as opaque values that expose only their own textual rendering
and a duplication operation.
-/

/-- Modelled from the spec: `Token` comes from the lexer (`lexer::Token`,
outside this subsystem); it is opaque here, required only to support its
own textual rendering (its `Display` output). -/
structure Token where
  render : String
deriving DecidableEq

/-- Modelled from the spec: `SExpr` comes from the parser (`parser::SExpr`,
outside this subsystem); it is opaque here, required only to support its
own textual rendering (its `Display` output) and duplication (`Clone`). -/
structure SExpr where
  render : String
deriving DecidableEq

/-- Modelled from the spec: the `Clone` capability of `SExpr` — produces a
duplicate equal to the original without modifying it. -/
def SExpr.clone (e : SExpr) : SExpr :=
  ⟨e.render⟩

/-- Modelled from the spec: `std::io::Error` is an external OS-I/O failure
type, opaque here; `msg` is its own textual rendering (its `to_string()`). -/
structure IoError where
  msg : String
deriving DecidableEq

/-- Modelled from the spec: `std::env::VarError` is an external
environment-variable-lookup failure type, opaque here; `msg` is its own
textual rendering (its `to_string()`). -/
structure VarError where
  msg : String
deriving DecidableEq

/-- The failure taxonomy: Rust enum `SErr` from `src/serr.rs`, one
constructor per variant with the same payloads (`usize` as `Nat`,
`String` as `String`). -/
inductive SErr where
  | Generic (x : String)
  | FoundNothing
  | EnvNotFound
  | DivisionByZero
  | UnexpectedForm (x : SExpr)
  | UnexpectedToken (x : Token)
  | NotExpectedToken (expected found : Token)
  | Cast (typ : String) (x : SExpr)
  | UnboundVar (x : String)
  | NotAProcedure (x : SExpr)
  | WrongArgCount (expected found : Nat)
  | IndexOutOfBounds (max requested : Nat)
  | TypeMismatch (x : String) (y : SExpr)
  | WrongPort (proc port : String)
  | IOErr (x : IoError)
  | VarErr (x : VarError)
deriving DecidableEq

/-- The message renderer: `impl fmt::Display for SErr` from `src/serr.rs`.
Each arm builds the same string the Rust `format!` call builds; `{}`
interpolation of a `Token` / `SExpr` payload is its own rendering, and of a
`usize` payload is its decimal representation. -/
def SErr.fmt : SErr → String
  | .Generic x => x
  | .FoundNothing => "Expected some expression or token, found nothing."
  | .EnvNotFound => "Environment not found. (Probably an unbound variable)"
  | .DivisionByZero => "Division by zero"
  | .UnexpectedForm x => "Expression is in unexpected form: " ++ x.render
  | .UnexpectedToken x => "Not expected this token: " ++ x.render
  | .NotExpectedToken x y => "Expected one of " ++ x.render ++ ", found " ++ y.render
  | .Cast typ x => "Can't convert " ++ x.render ++ " to " ++ typ
  | .UnboundVar x => "Unbound variable: " ++ x
  | .NotAProcedure x => "Wrong type to apply, not a procedure: " ++ x.render
  | .WrongArgCount x y => "Wrong arg count; expected: " ++ toString x ++ ", found: " ++ toString y
  | .IndexOutOfBounds x y => "Index out of bounds. Max size: " ++ toString x ++ ", requested: " ++ toString y
  | .TypeMismatch x y => "Expected a " ++ x ++ ", found this: " ++ y.render
  | .WrongPort x y => "Can't apply function `" ++ x ++ "` to a port type of " ++ y
  | .IOErr x => x.msg
  | .VarErr x => x.msg

/-- The category accessor: `impl Error for SErr`, method `description`,
from `src/serr.rs`. -/
def SErr.description : SErr → String
  | .Generic _ => "An error."
  | .FoundNothing => "Expected some expression or token, found nothing."
  | .EnvNotFound => "Environment not found. (Probably an unbound variable)"
  | .DivisionByZero => "Division by zero"
  | .UnexpectedForm _ => "Expression is in unexpected form."
  | .UnexpectedToken _ => "Unexpected token."
  | .NotExpectedToken _ _ => "Unexpected token."
  | .Cast _ _ => "Failed conversion."
  | .UnboundVar _ => "Unbound variable."
  | .NotAProcedure _ => "Not a procedure."
  | .WrongArgCount _ _ => "Wrong arg count."
  | .IndexOutOfBounds _ _ => "Index out of bounds."
  | .TypeMismatch _ _ => "Type mismatch."
  | .WrongPort _ _ => "Wrong type of port."
  | .IOErr _ => "IO error."
  | .VarErr _ => "Variable error."

/-- `SErr::new_generic` from `src/serr.rs` (`&str` → owned `String` is the
identity in this embedding). -/
def SErr.new_generic (s : String) : SErr :=
  SErr.Generic s

/-- `SErr::new_unbound_var` from `src/serr.rs`. -/
def SErr.new_unbound_var (s : String) : SErr :=
  SErr.UnboundVar s

/-- `SErr::new_unexpected_form` from `src/serr.rs`: clones the referenced
expression into the error. -/
def SErr.new_unexpected_form (x : SExpr) : SErr :=
  SErr.UnexpectedForm x.clone

/-- `SErr::new_id_not_found` from `src/serr.rs`; the `format!` call is one
literal followed by the interpolated argument. -/
def SErr.new_id_not_found (s : String) : SErr :=
  SErr.new_generic ("Expected an identifer, found: " ++ s)

/-- `SErr::new_expr_not_found` from `src/serr.rs`. -/
def SErr.new_expr_not_found (s : String) : SErr :=
  SErr.new_generic ("Expected an expression, found: " ++ s)

/-- `impl From<io::Error> for SErr` from `src/serr.rs`. -/
def SErr.fromIoError (e : IoError) : SErr :=
  SErr.IOErr e

/-- `impl From<env::VarError> for SErr` from `src/serr.rs`. -/
def SErr.fromVarError (e : VarError) : SErr :=
  SErr.VarErr e

/-- The variant tag of an `SErr` value: one symbol per enum variant,
payloads discarded.  Used to state payload-independence properties of
`SErr.description`. -/
inductive STag where
  | GenericT
  | FoundNothingT
  | EnvNotFoundT
  | DivisionByZeroT
  | UnexpectedFormT
  | UnexpectedTokenT
  | NotExpectedTokenT
  | CastT
  | UnboundVarT
  | NotAProcedureT
  | WrongArgCountT
  | IndexOutOfBoundsT
  | TypeMismatchT
  | WrongPortT
  | IOErrT
  | VarErrT
deriving DecidableEq

/-- The tag of a failure value. -/
def SErr.tagOf : SErr → STag
  | .Generic _ => .GenericT
  | .FoundNothing => .FoundNothingT
  | .EnvNotFound => .EnvNotFoundT
  | .DivisionByZero => .DivisionByZeroT
  | .UnexpectedForm _ => .UnexpectedFormT
  | .UnexpectedToken _ => .UnexpectedTokenT
  | .NotExpectedToken _ _ => .NotExpectedTokenT
  | .Cast _ _ => .CastT
  | .UnboundVar _ => .UnboundVarT
  | .NotAProcedure _ => .NotAProcedureT
  | .WrongArgCount _ _ => .WrongArgCountT
  | .IndexOutOfBounds _ _ => .IndexOutOfBoundsT
  | .TypeMismatch _ _ => .TypeMismatchT
  | .WrongPort _ _ => .WrongPortT
  | .IOErr _ => .IOErrT
  | .VarErr _ => .VarErrT

/-- The category string of each variant tag: the `description` arms of
`src/serr.rs` read off at the tag level (they ignore every payload). -/
def descOfTag : STag → String
  | .GenericT => "An error."
  | .FoundNothingT => "Expected some expression or token, found nothing."
  | .EnvNotFoundT => "Environment not found. (Probably an unbound variable)"
  | .DivisionByZeroT => "Division by zero"
  | .UnexpectedFormT => "Expression is in unexpected form."
  | .UnexpectedTokenT => "Unexpected token."
  | .NotExpectedTokenT => "Unexpected token."
  | .CastT => "Failed conversion."
  | .UnboundVarT => "Unbound variable."
  | .NotAProcedureT => "Not a procedure."
  | .WrongArgCountT => "Wrong arg count."
  | .IndexOutOfBoundsT => "Index out of bounds."
  | .TypeMismatchT => "Type mismatch."
  | .WrongPortT => "Wrong type of port."
  | .IOErrT => "IO error."
  | .VarErrT => "Variable error."

/-- All 16 variant tags of the taxonomy, in declaration order. -/
def allTags : List STag :=
  [.GenericT, .FoundNothingT, .EnvNotFoundT, .DivisionByZeroT,
   .UnexpectedFormT, .UnexpectedTokenT, .NotExpectedTokenT, .CastT,
   .UnboundVarT, .NotAProcedureT, .WrongArgCountT, .IndexOutOfBoundsT,
   .TypeMismatchT, .WrongPortT, .IOErrT, .VarErrT]

/-- The pass-through message of a failure, when its rendering is exactly a
payload string with no surrounding literal text: the `Generic`, `IOErr` and
`VarErr` arms of the renderer.  `none` for every other variant. -/
def SErr.passthroughMsg : SErr → Option String
  | .Generic x => some x
  | .IOErr x => some x.msg
  | .VarErr x => some x.msg
  | _ => none

/-- Opening brace character (used by the format-template model). -/
def lbrace : Char := Char.ofNat 123

/-- Closing brace character (used by the format-template model). -/
def rbrace : Char := Char.ofNat 125

/-- Model of Rust `format!` placeholder substitution over a template given
as a character list: a brace pair with nothing between the braces consumes
the next sequential argument, a brace pair enclosing a single digit `d`
takes argument number `d`; every other character is copied verbatim.
Arguments are supplied already rendered (Rust renders them through their
`Display` before splicing). -/
def substFmt (args : List String) : Nat → List Char → Nat → List Char
  | 0, cs, _ => cs
  | f + 1, cs, i =>
    match cs with
    | [] => []
    | c :: rest =>
      if c = lbrace then
        match rest with
        | [] => [c]
        | d :: rest2 =>
          if d = rbrace then
            (args.getD i "").toList ++ substFmt args f rest2 (i + 1)
          else
            match rest2 with
            | [] => [c, d]
            | e :: rest3 =>
              if e = rbrace && d.isDigit then
                (args.getD (d.toNat - 48) "").toList ++ substFmt args f rest3 i
              else
                c :: substFmt args f rest i
      else
        c :: substFmt args f rest i

/-- Model of Rust `format!` on a template and pre-rendered arguments.  The
fuel argument of `substFmt` is the template length; every step of the scan
consumes at least one character, so the fuel never runs out. -/
def rustFormat (template : String) (args : List String) : String :=
  String.mk (substFmt args template.length template.toList 0)

/-- The `serr!` macro from `src/serr.rs`: given a payload-free variant,
the enclosing operation immediately returns `Err` of that variant.  The
result of the enclosing operation is modelled as an `Except SErr` value. -/
def serrMacro (α : Type) (e : SErr) : Except SErr α :=
  Except.error e

/-- First arm of the `bail!` macro from `src/serr.rs`: a plain string-like
message; the enclosing operation returns `Err(SErr::Generic(message))`. -/
def bailMsg (α : Type) (s : String) : Except SErr α :=
  Except.error (SErr.Generic s)

/-- Second arm of the `bail!` macro from `src/serr.rs`: a format template
with arguments; the enclosing operation returns
`Err(SErr::Generic(format!(template, args)))`. -/
def bailFmt (α : Type) (template : String) (args : List String) : Except SErr α :=
  Except.error (SErr.Generic (rustFormat template args))

/-- Third and fourth arms of the `bail!` macro from `src/serr.rs`: a
variant name and payloads, each payload converted `.into()` its expected
type; the enclosing operation returns `Err` of the constructed variant.
The construction applied to the converted payloads is passed here as the
already-built variant value. -/
def bailVariant (α : Type) (e : SErr) : Except SErr α :=
  Except.error e

/-- A string append whose left part is non-empty is non-empty. -/
theorem append_ne_empty (s t : String) (h : s ≠ "") : s ++ t ≠ "" := by
  intro hc
  apply h
  have hd : (s ++ t).data = ("" : String).data := congrArg String.data hc
  simp [String.data_append] at hd
  cases s with
  | mk l => simp_all

/-- The category accessor factors through the variant tag. -/
theorem desc_eq_descOfTag (e : SErr) : e.description = descOfTag e.tagOf := by
  cases e <;> rfl

/-- C1: the message renderer is total and pure over all taxonomy variants
and, for every payload, produces exactly the verbatim per-variant format:
Generic renders its message unchanged, DivisionByZero renders
"Division by zero", WrongArgCount renders
"Wrong arg count; expected: {expected}, found: {found}", Cast renders
"Can't convert {expression} to {targetType}", and likewise for every other
variant, with Token/SExpr payloads rendered by their own textual
rendering; in particular `WrongArgCount 2 3` renders
"Wrong arg count; expected: 2, found: 3". -/
theorem serr_render_verbatim :
    ∀ (s typ nm pn pk : String) (t u : Token) (x : SExpr) (a b : Nat)
      (ioe : IoError) (vre : VarError),
    SErr.fmt (SErr.Generic s) = s ∧
    SErr.fmt SErr.FoundNothing = "Expected some expression or token, found nothing." ∧
    SErr.fmt SErr.EnvNotFound = "Environment not found. (Probably an unbound variable)" ∧
    SErr.fmt SErr.DivisionByZero = "Division by zero" ∧
    SErr.fmt (SErr.UnexpectedForm x) = "Expression is in unexpected form: " ++ x.render ∧
    SErr.fmt (SErr.UnexpectedToken t) = "Not expected this token: " ++ t.render ∧
    SErr.fmt (SErr.NotExpectedToken t u) = "Expected one of " ++ t.render ++ ", found " ++ u.render ∧
    SErr.fmt (SErr.Cast typ x) = "Can't convert " ++ x.render ++ " to " ++ typ ∧
    SErr.fmt (SErr.UnboundVar nm) = "Unbound variable: " ++ nm ∧
    SErr.fmt (SErr.NotAProcedure x) = "Wrong type to apply, not a procedure: " ++ x.render ∧
    SErr.fmt (SErr.WrongArgCount a b) = "Wrong arg count; expected: " ++ toString a ++ ", found: " ++ toString b ∧
    SErr.fmt (SErr.IndexOutOfBounds a b) = "Index out of bounds. Max size: " ++ toString a ++ ", requested: " ++ toString b ∧
    SErr.fmt (SErr.TypeMismatch typ x) = "Expected a " ++ typ ++ ", found this: " ++ x.render ∧
    SErr.fmt (SErr.WrongPort pn pk) = "Can't apply function `" ++ pn ++ "` to a port type of " ++ pk ∧
    SErr.fmt (SErr.IOErr ioe) = ioe.msg ∧
    SErr.fmt (SErr.VarErr vre) = vre.msg ∧
    SErr.fmt (SErr.WrongArgCount 2 3) = "Wrong arg count; expected: 2, found: 3" := by
  intro s typ nm pn pk t u x a b ioe vre
  exact ⟨rfl, rfl, rfl, rfl, rfl, rfl, rfl, rfl, rfl, rfl, rfl, rfl, rfl, rfl,
         rfl, rfl, by decide⟩

/-- C2: the two external adapters are total and lossless: converting an
OS I/O failure yields exactly `IOErr` of the original value and rendering
it yields exactly the wrapped value's own textual message; likewise for an
environment-variable-lookup failure and `VarErr`. -/
theorem adapters_total_lossless :
    ∀ (x : IoError) (y : VarError),
    SErr.fromIoError x = SErr.IOErr x ∧
    SErr.fmt (SErr.IOErr x) = x.msg ∧
    SErr.fromVarError y = SErr.VarErr y ∧
    SErr.fmt (SErr.VarErr y) = y.msg := by
  intro x y
  exact ⟨rfl, rfl, rfl, rfl⟩

/-- C3: the category accessor is total and depends only on the variant
tag: any two failures with the same tag get identical category strings;
in particular every UnexpectedToken and every NotExpectedToken value maps
to the category string "Unexpected token.". -/
theorem category_depends_only_on_tag :
    (∀ e₁ e₂ : SErr, e₁.tagOf = e₂.tagOf → e₁.description = e₂.description) ∧
    (∀ t : Token, (SErr.UnexpectedToken t).description = "Unexpected token.") ∧
    (∀ t u : Token, (SErr.NotExpectedToken t u).description = "Unexpected token.") := by
  refine ⟨?_, fun t => rfl, fun t u => rfl⟩
  intro e₁ e₂ h
  rw [desc_eq_descOfTag, desc_eq_descOfTag, h]

/-- Witness for C3: two Generic values with different payloads have the
same category string. -/
theorem category_depends_only_on_tag_witness :
    (SErr.Generic "a").description = (SErr.Generic "b").description :=
  category_depends_only_on_tag.1 (SErr.Generic "a") (SErr.Generic "b") rfl

/-- Counterexample for C4: the claim says render produces a non-empty
string for every variant and every payload, but `Generic ""` renders the
empty string. -/
theorem render_nonempty_counterexample :
    SErr.fmt (SErr.Generic "") = "" := rfl

/-- C4 (amended): render is deterministic (equal arguments render
equally), and renders the empty string exactly when the failure is one of
the pass-through variants (Generic, IOErr, VarErr) with an empty message
payload; every other variant renders a non-empty string for every
payload. -/
theorem render_deterministic_nonempty_amended :
    ∀ e₁ e₂ : SErr,
    (e₁ = e₂ → SErr.fmt e₁ = SErr.fmt e₂) ∧
    (SErr.fmt e₁ = "" ↔ SErr.passthroughMsg e₁ = some "") := by
  intro e₁ e₂
  constructor
  · intro h
    rw [h]
  · cases e₁ with
    | Generic x => simp [SErr.fmt, SErr.passthroughMsg]
    | FoundNothing => decide
    | EnvNotFound => decide
    | DivisionByZero => decide
    | UnexpectedForm x =>
        exact iff_of_false (append_ne_empty _ _ (by decide))
          (by simp [SErr.passthroughMsg])
    | UnexpectedToken x =>
        exact iff_of_false (append_ne_empty _ _ (by decide))
          (by simp [SErr.passthroughMsg])
    | NotExpectedToken x y =>
        exact iff_of_false
          (append_ne_empty _ _ (append_ne_empty _ _ (append_ne_empty _ _ (by decide))))
          (by simp [SErr.passthroughMsg])
    | Cast typ x =>
        exact iff_of_false
          (append_ne_empty _ _ (append_ne_empty _ _ (append_ne_empty _ _ (by decide))))
          (by simp [SErr.passthroughMsg])
    | UnboundVar x =>
        exact iff_of_false (append_ne_empty _ _ (by decide))
          (by simp [SErr.passthroughMsg])
    | NotAProcedure x =>
        exact iff_of_false (append_ne_empty _ _ (by decide))
          (by simp [SErr.passthroughMsg])
    | WrongArgCount a b =>
        exact iff_of_false
          (append_ne_empty _ _ (append_ne_empty _ _ (append_ne_empty _ _ (by decide))))
          (by simp [SErr.passthroughMsg])
    | IndexOutOfBounds a b =>
        exact iff_of_false
          (append_ne_empty _ _ (append_ne_empty _ _ (append_ne_empty _ _ (by decide))))
          (by simp [SErr.passthroughMsg])
    | TypeMismatch x y =>
        exact iff_of_false
          (append_ne_empty _ _ (append_ne_empty _ _ (append_ne_empty _ _ (by decide))))
          (by simp [SErr.passthroughMsg])
    | WrongPort x y =>
        exact iff_of_false
          (append_ne_empty _ _ (append_ne_empty _ _ (append_ne_empty _ _ (by decide))))
          (by simp [SErr.passthroughMsg])
    | IOErr x => simp [SErr.fmt, SErr.passthroughMsg]
    | VarErr x => simp [SErr.fmt, SErr.passthroughMsg]

/-- Witness for C4 (amended): determinism applied at a concrete input. -/
theorem render_deterministic_nonempty_amended_witness :
    SErr.fmt (SErr.Generic "hi") = SErr.fmt (SErr.Generic "hi") :=
  (render_deterministic_nonempty_amended (SErr.Generic "hi") (SErr.Generic "hi")).1 rfl

/-- C5: each convenience constructor produces the documented variant with
the documented message: `new_generic s` is `Generic s`; `new_unbound_var s`
renders as "Unbound variable: " followed by `s`; `new_id_not_found s` is a
Generic rendering "Expected an identifer, found: " followed by `s`;
`new_expr_not_found s` is a Generic rendering
"Expected an expression, found: " followed by `s`. -/
theorem constructors_documented :
    ∀ s : String,
    SErr.new_generic s = SErr.Generic s ∧
    SErr.fmt (SErr.new_unbound_var s) = "Unbound variable: " ++ s ∧
    SErr.new_id_not_found s = SErr.Generic ("Expected an identifer, found: " ++ s) ∧
    SErr.fmt (SErr.new_id_not_found s) = "Expected an identifer, found: " ++ s ∧
    SErr.new_expr_not_found s = SErr.Generic ("Expected an expression, found: " ++ s) ∧
    SErr.fmt (SErr.new_expr_not_found s) = "Expected an expression, found: " ++ s ∧
    SErr.fmt (SErr.new_unbound_var "x") = "Unbound variable: x" := by
  intro s
  exact ⟨rfl, rfl, rfl, rfl, rfl, rfl, by decide⟩

/-- C6: the propagation helpers are observationally identical to direct
manual construction of the corresponding variant from the same payloads;
in particular `bail` with template "bad {0}" and argument 5 yields a
Generic failure whose rendered message is "bad 5". -/
theorem bail_serr_observational :
    (∀ e : SErr, serrMacro Unit e = Except.error e) ∧
    (∀ s : String, bailMsg Unit s = Except.error (SErr.Generic s)) ∧
    (∀ e : SErr, bailVariant Unit e = Except.error e) ∧
    (∀ (t : String) (args : List String),
      bailFmt Unit t args = Except.error (SErr.Generic (rustFormat t args))) ∧
    bailFmt Unit "bad {0}" [toString (5 : Nat)] = Except.error (SErr.Generic "bad 5") ∧
    SErr.fmt (SErr.Generic "bad 5") = "bad 5" := by
  refine ⟨fun e => rfl, fun s => rfl, fun e => rfl, fun t args => rfl, ?_, rfl⟩
  have h : rustFormat "bad {0}" [toString (5 : Nat)] = "bad 5" := by decide
  simp [bailFmt, h]

/-- C7: for every expression `e`, `new_unexpected_form e` returns an
UnexpectedForm failure carrying a duplicate equal to `e`; duplication
produces a value equal to the original, which is left unchanged (the
embedding is pure, so the argument is never mutated). -/
theorem unexpected_form_duplicates :
    ∀ e : SExpr,
    SErr.new_unexpected_form e = SErr.UnexpectedForm e.clone ∧
    e.clone = e ∧
    SErr.new_unexpected_form e = SErr.UnexpectedForm e := by
  intro e
  exact ⟨rfl, rfl, rfl⟩

/-- C8: the renderer is not injective across variants: every taxonomy
value has a Generic value rendering identically (Generic of its own
rendering), Generic "Division by zero" renders identically to
DivisionByZero, and two values with different variant tags can share a
rendering, so the variant cannot in general be recovered from the rendered
message. -/
theorem render_not_injective :
    (∀ v : SErr, SErr.fmt (SErr.Generic (SErr.fmt v)) = SErr.fmt v) ∧
    SErr.fmt (SErr.Generic "Division by zero") = SErr.fmt SErr.DivisionByZero ∧
    (∃ v₁ v₂ : SErr, v₁.tagOf ≠ v₂.tagOf ∧ SErr.fmt v₁ = SErr.fmt v₂) := by
  refine ⟨fun v => rfl, rfl, ?_⟩
  exact ⟨SErr.Generic "Division by zero", SErr.DivisionByZero, by decide, rfl⟩

/-- C9: the category accessor is not message-preserving for the adapted
variants: for every wrapped I/O failure and every wrapped
environment-variable failure it returns the fixed strings "IO error." and
"Variable error.", independent of the wrapped message. -/
theorem category_fixed_for_adapters :
    ∀ (x : IoError) (y : VarError),
    (SErr.IOErr x).description = "IO error." ∧
    (SErr.VarErr y).description = "Variable error." := by
  intro x y
  exact ⟨rfl, rfl⟩

/-- C10: the category accessor is injective on variant tags except for the
single documented collision: the 16 tags map to exactly 15 distinct
category strings, and two distinct tags share a category string exactly
when they are the pair UnexpectedToken / NotExpectedToken. -/
theorem category_injective_except_one_pair :
    (∀ e : SErr, e.description = descOfTag e.tagOf) ∧
    allTags.length = 16 ∧
    (∀ t : STag, t ∈ allTags) ∧
    (allTags.map descOfTag).dedup.length = 15 ∧
    (∀ t₁ t₂ : STag, t₁ ≠ t₂ →
      (descOfTag t₁ = descOfTag t₂ ↔
        ((t₁ = STag.UnexpectedTokenT ∧ t₂ = STag.NotExpectedTokenT) ∨
         (t₁ = STag.NotExpectedTokenT ∧ t₂ = STag.UnexpectedTokenT)))) := by
  refine ⟨desc_eq_descOfTag, by decide, ?_, by decide, ?_⟩
  · intro t
    cases t <;> decide
  · intro t₁ t₂ h
    revert h
    cases t₁ <;> cases t₂ <;> decide

/-- Witness for C10: two concrete distinct tags other than the documented
pair have distinct category strings. -/
theorem category_injective_except_one_pair_witness :
    descOfTag STag.GenericT = descOfTag STag.DivisionByZeroT ↔
      ((STag.GenericT = STag.UnexpectedTokenT ∧ STag.DivisionByZeroT = STag.NotExpectedTokenT) ∨
       (STag.GenericT = STag.NotExpectedTokenT ∧ STag.DivisionByZeroT = STag.UnexpectedTokenT)) :=
  category_injective_except_one_pair.2.2.2.2 STag.GenericT STag.DivisionByZeroT (by decide)
